import Mathlib

/-!
Verification of the Manga-Reader application: a shallow embedding of the
comment/subscription fan-out triggers, the report pipeline, the client-side
handlers in Reader.tsx / AdminPanel and the auth-store profile logic, with
theorems settling the specified properties.

Tables are embedded as lists of rows; SQL triggers and the client handlers
become pure functions over these lists.  Identifiers (uuids) are Nat,
timestamps are Nat, SQL text columns are String, nullable columns are Option.
-/

namespace MangaReader

/-- A row of the `comments` table (migration part_000 / Reader.tsx insert):
manga id, chapter number, author id and email, content. -/
structure CommentRow where
  id : Nat
  manga_id : Nat
  chapter : Nat
  user_id : Nat
  user_email : String
  content : String
deriving DecidableEq

/-- A row of `comment_subscriptions`: PRIMARY KEY (user_id, manga_id, chapter). -/
structure Subscription where
  user_id : Nat
  manga_id : Nat
  chapter : Nat
deriving DecidableEq

/-- A row of `comment_notifications`: recipient, referenced comment, read flag
(`read boolean DEFAULT false`). -/
structure CommentNotificationRow where
  user_id : Nat
  comment_id : Nat
  read : Bool
deriving DecidableEq

/-- The trigger function `notify_comment_subscribers()` (AFTER INSERT ON
comments): inserts into `comment_notifications (user_id, comment_id)` one row
per subscription with `cs.manga_id = NEW.manga_id AND cs.chapter = NEW.chapter
AND cs.user_id != NEW.user_id`; the `read` column takes its default `false`.
This function returns the list of rows the trigger inserts. -/
def notify_comment_subscribers (subs : List Subscription) (c : CommentRow) :
    List CommentNotificationRow :=
  (subs.filter fun cs =>
      cs.manga_id == c.manga_id && cs.chapter == c.chapter && cs.user_id != c.user_id).map
    fun cs => { user_id := cs.user_id, comment_id := c.id, read := false }

/-- C1: For every comment inserted into thread (manga M, chapter C), the
comment-insert trigger creates exactly the set of notification rows whose
recipients are the users subscribed to (M, C) minus the author — one row per
such subscriber, no duplicates, each referencing the new comment and each
initially unread.  The hypothesis is the primary key of
`comment_subscriptions`: no duplicate (user, manga, chapter) rows. -/
theorem comment_fanout_exact (subs : List Subscription) (c : CommentRow)
    (hpk : subs.Nodup) :
    (∀ n ∈ notify_comment_subscribers subs c, n.comment_id = c.id ∧ n.read = false) ∧
    ((notify_comment_subscribers subs c).map CommentNotificationRow.user_id).Nodup ∧
    (∀ u : Nat,
      u ∈ (notify_comment_subscribers subs c).map CommentNotificationRow.user_id ↔
      (⟨u, c.manga_id, c.chapter⟩ : Subscription) ∈ subs ∧ u ≠ c.user_id) := by
  unfold notify_comment_subscribers
  refine ⟨?_, ?_, ?_⟩
  · intro n hn
    simp only [List.mem_map] at hn
    obtain ⟨cs, _, rfl⟩ := hn
    exact ⟨rfl, rfl⟩
  · rw [List.map_map]
    apply List.Nodup.map_on
    · intro x hx y hy hxy
      simp only [List.mem_filter, Bool.and_eq_true, beq_iff_eq, bne_iff_ne] at hx hy
      cases x; cases y
      simp only [Function.comp_apply] at hxy
      simp_all
    · exact hpk.filter _
  · intro u
    simp only [List.map_map, List.mem_map, List.mem_filter, Function.comp_apply,
      Bool.and_eq_true, beq_iff_eq, bne_iff_ne]
    constructor
    · rintro ⟨cs, ⟨hmem, ⟨hm, hc⟩, hu⟩, rfl⟩
      cases cs
      simp_all
    · rintro ⟨hmem, hne⟩
      exact ⟨⟨u, c.manga_id, c.chapter⟩, ⟨hmem, ⟨rfl, rfl⟩, hne⟩, rfl⟩

/-- Witness for `comment_fanout_exact` at a concrete state: subscribers 1 and 2
to (manga 10, chapter 3), comment 5 authored by user 2. -/
theorem comment_fanout_exact_witness :
    ((notify_comment_subscribers
        [⟨1, 10, 3⟩, ⟨2, 10, 3⟩, ⟨1, 10, 4⟩]
        ⟨5, 10, 3, 2, "b@x", "hi"⟩).map CommentNotificationRow.user_id).Nodup :=
  (comment_fanout_exact [⟨1, 10, 3⟩, ⟨2, 10, 3⟩, ⟨1, 10, 4⟩]
    ⟨5, 10, 3, 2, "b@x", "hi"⟩ (by decide)).2.1

/-- Database errors surfaced by the backing store to the client. -/
inductive DbError where
  | pkViolation
  | uniqueViolation
deriving DecidableEq

/-- An INSERT into `comment_subscriptions`: PRIMARY KEY
(user_id, manga_id, chapter) rejects a row whose key already exists. -/
def insertSubscription (table : List Subscription) (s : Subscription) :
    Except DbError (List Subscription) :=
  if table.any fun r =>
      r.user_id == s.user_id && r.manga_id == s.manga_id && r.chapter == s.chapter then
    .error .pkViolation
  else
    .ok (table ++ [s])

/-- Outcome of a toggleSubscription branch in Reader.tsx: the subscription
table afterwards, the client isSubscribed state afterwards, and whether the
catch block fired (error toast shown). -/
structure SubscribeOutcome where
  table : List Subscription
  isSubscribed : Bool
  errorToast : Bool
deriving DecidableEq

/-- toggleSubscription, subscribe branch (Reader.tsx lines 319-331, taken when
isSubscribed is false): inserts the (manga, chapter, user) row; `if (error)
throw error` sends a store error to the catch block, which logs and shows a
failure toast, leaving isSubscribed at its prior value false; on success the
client sets isSubscribed to true. -/
def toggleSubscription_subscribe (table : List Subscription) (u m c : Nat) :
    SubscribeOutcome :=
  match insertSubscription table ⟨u, m, c⟩ with
  | .ok t => ⟨t, true, false⟩
  | .error _ => ⟨table, false, true⟩

/-- A DELETE from `comment_subscriptions` filtered by manga_id, chapter and
user_id (Reader.tsx lines 309-314).  A delete matching zero rows is not an
error in the store API, so the operation is total. -/
def deleteSubscription (table : List Subscription) (m c u : Nat) :
    List Subscription :=
  table.filter fun s => !(s.manga_id == m && s.chapter == c && s.user_id == u)

/-- toggleSubscription, unsubscribe branch (Reader.tsx lines 308-318, taken
when isSubscribed is true): deletes the matching rows, sets isSubscribed to
false; the store reports no error for a delete matching zero rows, so the
catch block never fires on this path. -/
def toggleSubscription_unsubscribe (table : List Subscription) (u m c : Nat) :
    SubscribeOutcome :=
  ⟨deleteSubscription table m c u, false, false⟩

/-- C2 counterexample: subscribing when a subscription row for the tuple
already exists is NOT treated as already-subscribed: the insert is a plain
INSERT, the primary-key collision is an error, and the client surfaces it as
a failure toast with isSubscribed left false. -/
theorem subscribe_collision_is_error :
    insertSubscription [⟨1, 2, 3⟩] ⟨1, 2, 3⟩ = .error .pkViolation ∧
    (toggleSubscription_subscribe [⟨1, 2, 3⟩] 1 2 3).errorToast = true ∧
    (toggleSubscription_subscribe [⟨1, 2, 3⟩] 1 2 3).isSubscribed = false :=
  ⟨rfl, rfl, rfl⟩

/-- C2 amended: subscribing when a subscription row for the tuple already
exists fails with a primary-key-violation error (surfaced as a failure
toast), but the failed insert changes nothing, so afterwards exactly one
subscription row for that tuple exists. -/
theorem subscribe_collision_keeps_one_row (table : List Subscription) (u m c : Nat)
    (hpk : table.Nodup) (hmem : (⟨u, m, c⟩ : Subscription) ∈ table) :
    (toggleSubscription_subscribe table u m c).errorToast = true ∧
    (toggleSubscription_subscribe table u m c).table = table ∧
    (toggleSubscription_subscribe table u m c).table.count (⟨u, m, c⟩ : Subscription) = 1 := by
  have hany : (table.any fun r =>
      r.user_id == u && r.manga_id == m && r.chapter == c) = true := by
    rw [List.any_eq_true]
    exact ⟨⟨u, m, c⟩, hmem, by simp⟩
  have hins : insertSubscription table ⟨u, m, c⟩ = .error .pkViolation := by
    unfold insertSubscription
    simp only [hany, if_true]
  unfold toggleSubscription_subscribe
  rw [hins]
  exact ⟨rfl, rfl, List.count_eq_one_of_mem hpk hmem⟩

/-- Witness for `subscribe_collision_keeps_one_row` at a concrete table
holding the row (1, 2, 3). -/
theorem subscribe_collision_keeps_one_row_witness :
    (toggleSubscription_subscribe [⟨1, 2, 3⟩, ⟨4, 2, 3⟩] 1 2 3).errorToast = true ∧
    (toggleSubscription_subscribe [⟨1, 2, 3⟩, ⟨4, 2, 3⟩] 1 2 3).table
      = [⟨1, 2, 3⟩, ⟨4, 2, 3⟩] ∧
    (toggleSubscription_subscribe [⟨1, 2, 3⟩, ⟨4, 2, 3⟩] 1 2 3).table.count
      (⟨1, 2, 3⟩ : Subscription) = 1 :=
  subscribe_collision_keeps_one_row [⟨1, 2, 3⟩, ⟨4, 2, 3⟩] 1 2 3
    (by decide) (by decide)

/-- C5: unsubscribing when no subscription row exists for the tuple is a
no-op: the delete matches nothing, raises no error (no failure toast),
creates no row and removes no row. -/
theorem unsubscribe_absent_noop (table : List Subscription) (u m c : Nat)
    (habs : ∀ s ∈ table, ¬(s.manga_id = m ∧ s.chapter = c ∧ s.user_id = u)) :
    (toggleSubscription_unsubscribe table u m c).table = table ∧
    (toggleSubscription_unsubscribe table u m c).errorToast = false := by
  refine ⟨?_, rfl⟩
  unfold toggleSubscription_unsubscribe deleteSubscription
  simp only
  rw [List.filter_eq_self]
  intro s hs
  have := habs s hs
  simp only [Bool.not_eq_eq_eq_not, Bool.not_true, Bool.and_eq_false_iff] at this ⊢
  by_cases hm : s.manga_id = m
  · by_cases hc : s.chapter = c
    · have hu : ¬s.user_id = u := fun hu => this ⟨hm, hc, hu⟩
      simp [hu]
    · simp [hc]
  · simp [hm]

/-- Witness for `unsubscribe_absent_noop`: user 9 unsubscribes from
(manga 2, chapter 3) while only users 1 and 4 are subscribed. -/
theorem unsubscribe_absent_noop_witness :
    (toggleSubscription_unsubscribe [⟨1, 2, 3⟩, ⟨4, 2, 3⟩] 9 2 3).table
      = [⟨1, 2, 3⟩, ⟨4, 2, 3⟩] ∧
    (toggleSubscription_unsubscribe [⟨1, 2, 3⟩, ⟨4, 2, 3⟩] 9 2 3).errorToast = false :=
  unsubscribe_absent_noop [⟨1, 2, 3⟩, ⟨4, 2, 3⟩] 9 2 3 (by decide)

/-- A row of `manga_reports` (migration 20250310234149): manga, chapter,
reporter, issue type, optional description, status text defaulting to
pending, optional resolution timestamp. -/
structure ReportRow where
  id : Nat
  manga_id : Nat
  chapter : Nat
  user_id : Nat
  issue_type : String
  description : Option String
  status : String
  resolved_at : Option Nat
deriving DecidableEq

/-- The jsonb payload built by `notify_admins_on_report()`:
report_id, manga_id, chapter, issue_type, description of the NEW report. -/
structure ReportPayload where
  report_id : Nat
  manga_id : Nat
  chapter : Nat
  issue_type : String
  description : Option String
deriving DecidableEq

/-- A row of `admin_notifications` (migration 20250310234721): type tag,
jsonb data, read flag defaulting to false. -/
structure AdminNotificationRow where
  id : Nat
  type : String
  data : ReportPayload
  read : Bool
deriving DecidableEq

/-- A pg_notify event: channel name and payload. -/
structure PgNotifyEvent where
  channel : String
  payload : ReportPayload
deriving DecidableEq

/-- The payload `jsonb_build_object(report_id, manga_id, chapter, issue_type,
description)` of a report row. -/
def reportPayload (r : ReportRow) : ReportPayload :=
  ⟨r.id, r.manga_id, r.chapter, r.issue_type, r.description⟩

/-- State touched by a report insert: the `manga_reports` table, the
`admin_notifications` table, and the stream of pg_notify events. -/
structure ReportDbState where
  manga_reports : List ReportRow
  admin_notifications : List AdminNotificationRow
  notify_events : List PgNotifyEvent
deriving DecidableEq

/-- An INSERT into `manga_reports` together with the AFTER INSERT trigger
`notify_admins_on_report()` (migration 20250310234721 lines 46-83): the
trigger inserts one `admin_notifications` row of type manga_report whose
data is the report payload (read takes its default false; `notifId` models
the generated uuid), and performs one pg_notify on channel
admin_report_notification with the same payload. -/
def insertReport (st : ReportDbState) (r : ReportRow) (notifId : Nat) :
    ReportDbState :=
  { manga_reports := st.manga_reports ++ [r],
    admin_notifications :=
      st.admin_notifications ++ [⟨notifId, "manga_report", reportPayload r, false⟩],
    notify_events :=
      st.notify_events ++ [⟨"admin_report_notification", reportPayload r⟩] }

/-- C3: every report insert creates exactly one admin-notification row, whose
payload carries the report's id, manga id, chapter, issue type and
description, and emits exactly one event on channel
admin_report_notification with the same payload. -/
theorem report_insert_fanout (st : ReportDbState) (r : ReportRow) (notifId : Nat) :
    (insertReport st r notifId).admin_notifications.length
      = st.admin_notifications.length + 1 ∧
    (insertReport st r notifId).notify_events.length
      = st.notify_events.length + 1 ∧
    (∀ n ∈ (insertReport st r notifId).admin_notifications,
      n ∉ st.admin_notifications →
        n.type = "manga_report" ∧ n.read = false ∧
        n.data.report_id = r.id ∧ n.data.manga_id = r.manga_id ∧
        n.data.chapter = r.chapter ∧ n.data.issue_type = r.issue_type ∧
        n.data.description = r.description) ∧
    (∀ e ∈ (insertReport st r notifId).notify_events,
      e ∉ st.notify_events →
        e.channel = "admin_report_notification" ∧ e.payload = reportPayload r) := by
  refine ⟨by simp [insertReport], by simp [insertReport], ?_, ?_⟩
  · intro n hn hnew
    simp only [insertReport, List.mem_append, List.mem_singleton] at hn
    rcases hn with hold | rfl
    · exact absurd hold hnew
    · exact ⟨rfl, rfl, rfl, rfl, rfl, rfl, rfl⟩
  · intro e he henew
    simp only [insertReport, List.mem_append, List.mem_singleton] at he
    rcases he with hold | rfl
    · exact absurd hold henew
    · exact ⟨rfl, rfl⟩

/-- Witness for `report_insert_fanout` at a concrete state and report. -/
theorem report_insert_fanout_witness :
    (insertReport ⟨[], [], []⟩ ⟨1, 2, 3, 4, "missing", none, "pending", none⟩ 7).admin_notifications.length
      = ([] : List AdminNotificationRow).length + 1 :=
  (report_insert_fanout ⟨[], [], []⟩ ⟨1, 2, 3, 4, "missing", none, "pending", none⟩ 7).1

/-- handleReportStatus (AdminPanel, part_005 lines 411-433): updates every
`manga_reports` row matching the id, setting `status` and setting
`resolved_at` to the current time when the new status is resolved, else to
null. -/
def handleReportStatus (table : List ReportRow) (reportId : Nat)
    (status : String) (now : Nat) : List ReportRow :=
  table.map fun r =>
    if r.id == reportId then
      { r with
        status := status,
        resolved_at := if status == "resolved" then some now else none }
    else r

/-- C4: setting a report's status to resolved stamps its resolution
timestamp, any other status sets it to null; in the sequence pending →
in_progress → resolved the timestamp is set only after the final
transition. -/
theorem report_status_resolved_stamps (table : List ReportRow) (reportId : Nat)
    (s : String) (t1 t2 : Nat) (hs : s ≠ "resolved") :
    (∀ r ∈ handleReportStatus table reportId "resolved" t2,
      r.id = reportId → r.resolved_at = some t2) ∧
    (∀ r ∈ handleReportStatus table reportId s t1,
      r.id = reportId → r.resolved_at = none) ∧
    (∀ r ∈ handleReportStatus table reportId "in_progress" t1,
      r.id = reportId → r.resolved_at = none) ∧
    (∀ r ∈ handleReportStatus
        (handleReportStatus table reportId "in_progress" t1) reportId "resolved" t2,
      r.id = reportId → r.resolved_at = some t2) := by
  have key : ∀ (tb : List ReportRow) (st : String) (tm : Nat),
      ∀ r ∈ handleReportStatus tb reportId st tm, r.id = reportId →
        r.resolved_at = if st == "resolved" then some tm else none := by
    intro tb st tm r hr hid
    simp only [handleReportStatus, List.mem_map] at hr
    obtain ⟨r0, _, rfl⟩ := hr
    by_cases h0 : r0.id = reportId
    · simp [h0]
    · simp_all
  refine ⟨?_, ?_, ?_, ?_⟩
  · intro r hr hid
    simpa using key table "resolved" t2 r hr hid
  · intro r hr hid
    have := key table s t1 r hr hid
    simpa [hs] using this
  · intro r hr hid
    simpa using key table "in_progress" t1 r hr hid
  · intro r hr hid
    simpa using key (handleReportStatus table reportId "in_progress" t1)
      "resolved" t2 r hr hid

/-- Witness for `report_status_resolved_stamps`: report 1 starts pending;
after in_progress then resolved its timestamp is 20. -/
theorem report_status_resolved_stamps_witness :
    (⟨1, 2, 3, 4, "missing", none, "resolved", some 20⟩ : ReportRow).resolved_at
      = some 20 :=
  (report_status_resolved_stamps [⟨1, 2, 3, 4, "missing", none, "pending", none⟩]
    1 "in_progress" 10 20 (by decide)).2.2.2
    ⟨1, 2, 3, 4, "missing", none, "resolved", some 20⟩ (by decide) rfl

/-- The authenticated user as held by the client (App user object). -/
structure UserT where
  id : Nat
  email : String
deriving DecidableEq

/-- Outcome of handleComment: the `comments` table afterwards, the pending
comment draft (newComment state) afterwards, and whether a failure path was
taken (error toast shown, nothing inserted). -/
structure CommentOutcome where
  comments : List CommentRow
  draft : String
  errorToast : Bool
deriving DecidableEq

/-- JavaScript String.prototype.trim as used by Reader.tsx: strip leading
and trailing whitespace. -/
def jsTrim (s : String) : String :=
  ⟨((s.data.dropWhile Char.isWhitespace).reverse.dropWhile Char.isWhitespace).reverse⟩

/-- handleComment (Reader.tsx lines 269-299): if there is no user, toast an
error and return; if the trimmed draft is empty, toast an error and return;
otherwise insert a comment row with the manga id, chapter number, the user's
id and email and the trimmed content (`newId` models the generated uuid),
then clear the draft. -/
def handleComment (user : Option UserT) (mangaId chapter : Nat)
    (draft : String) (comments : List CommentRow) (newId : Nat) :
    CommentOutcome :=
  match user with
  | none => ⟨comments, draft, true⟩
  | some u =>
    if jsTrim draft = "" then ⟨comments, draft, true⟩
    else ⟨comments ++ [⟨newId, mangaId, chapter, u.id, u.email, jsTrim draft⟩],
          "", false⟩

/-- C6: posting a comment inserts a row carrying the manga id, chapter
number, author identity and content; it fails — inserting no row and leaving
the draft unchanged — when the caller is unauthenticated or the content is
empty (the code rejects exactly the drafts whose trim is empty, which
includes the empty draft). -/
theorem post_comment_insert_or_fail (user : Option UserT) (u : UserT)
    (mangaId chapter : Nat) (draft : String) (comments : List CommentRow)
    (newId : Nat) :
    (handleComment none mangaId chapter draft comments newId
      = ⟨comments, draft, true⟩) ∧
    (jsTrim draft = "" →
      handleComment user mangaId chapter draft comments newId
        = ⟨comments, draft, true⟩) ∧
    (jsTrim draft ≠ "" →
      handleComment (some u) mangaId chapter draft comments newId
        = ⟨comments ++ [⟨newId, mangaId, chapter, u.id, u.email, jsTrim draft⟩],
           "", false⟩) := by
  refine ⟨rfl, ?_, ?_⟩
  · intro h
    cases user with
    | none => rfl
    | some v => simp [handleComment, h]
  · intro h
    simp [handleComment, h]

/-- Witness for `post_comment_insert_or_fail`: user 4 posts a padded draft
"hi " on (manga 2, chapter 3); the row carries the trimmed content and the
draft is cleared.  A whitespace draft " " fails and is kept. -/
theorem post_comment_insert_or_fail_witness :
    (handleComment (some ⟨4, "a@x"⟩) 2 3 " " [] 9 = ⟨[], " ", true⟩) ∧
    (handleComment (some ⟨4, "a@x"⟩) 2 3 "hi " [] 9
      = ⟨[⟨9, 2, 3, 4, "a@x", "hi"⟩], "", false⟩) :=
  ⟨(post_comment_insert_or_fail (some ⟨4, "a@x"⟩) ⟨4, "a@x"⟩ 2 3 " " [] 9).2.1
      (by decide),
   (post_comment_insert_or_fail (some ⟨4, "a@x"⟩) ⟨4, "a@x"⟩ 2 3 "hi " [] 9).2.2
      (by decide)⟩

/-- markNotificationAsRead (AdminPanel, part_005 lines 149-170): updates
every `admin_notifications` row matching the id, setting read to true.
An UPDATE matching zero or already-read rows is not a store error, so the
operation is total. -/
def markNotificationAsRead (table : List AdminNotificationRow) (id : Nat) :
    List AdminNotificationRow :=
  table.map fun n => if n.id == id then { n with read := true } else n

/-- C7: marking a notification as read is idempotent: applying it twice
yields the same stored table as applying it once, an already-read
notification row is left exactly as it was (read stays true), and no error
arises (the update is total). -/
theorem mark_notification_read_idempotent (table : List AdminNotificationRow)
    (id : Nat) (n : AdminNotificationRow) (hn : n ∈ table) (hread : n.read = true) :
    markNotificationAsRead (markNotificationAsRead table id) id
      = markNotificationAsRead table id ∧
    n ∈ markNotificationAsRead table id := by
  constructor
  · unfold markNotificationAsRead
    rw [List.map_map]
    apply List.map_congr_left
    intro x _
    by_cases hx : x.id = id
    · simp [Function.comp, hx]
    · simp [Function.comp, hx]
  · have himg : (if n.id == id then { n with read := true } else n) = n := by
      by_cases hx : n.id = id
      · cases n
        simp_all
      · simp [hx]
    unfold markNotificationAsRead
    rw [← himg]
    exact List.mem_map_of_mem _ hn

/-- Witness for `mark_notification_read_idempotent`: notification 5 is
already read; marking it again leaves the table fixed and the row present. -/
theorem mark_notification_read_idempotent_witness :
    (markNotificationAsRead
        (markNotificationAsRead [⟨5, "manga_report", ⟨1, 2, 3, "missing", none⟩, true⟩] 5) 5
      = markNotificationAsRead [⟨5, "manga_report", ⟨1, 2, 3, "missing", none⟩, true⟩] 5) ∧
    (⟨5, "manga_report", ⟨1, 2, 3, "missing", none⟩, true⟩ : AdminNotificationRow)
      ∈ markNotificationAsRead [⟨5, "manga_report", ⟨1, 2, 3, "missing", none⟩, true⟩] 5 :=
  mark_notification_read_idempotent
    [⟨5, "manga_report", ⟨1, 2, 3, "missing", none⟩, true⟩] 5
    ⟨5, "manga_report", ⟨1, 2, 3, "missing", none⟩, true⟩ (by decide) rfl

/-- A row of `profiles`: user id, optional username, optional avatar, admin
flag. -/
structure Profile where
  user_id : Nat
  username : Option String
  avatar_url : Option String
  is_admin : Bool
deriving DecidableEq

/-- The username the store inserts on first login (store.ts line 42,
JavaScript email.split at the at sign, first element: the part of the email
before the first at sign, the whole email when it has none; null when the
auth user has no email). -/
def usernameFromEmail (email : Option String) : Option String :=
  email.map fun e => ⟨e.data.takeWhile fun ch => ch != '@'⟩

/-- Whether the UNIQUE constraint on profiles.username (part_008 line 29,
`username TEXT UNIQUE`) rejects inserting a row with this username: a
non-null username equal to an existing row's username collides; nulls never
collide. -/
def usernameTaken (table : List Profile) (un : Option String) : Bool :=
  un.isSome && table.any fun q => q.username == un

/-- An INSERT into `profiles` (part_008 lines 27-34): PRIMARY KEY user_id and
UNIQUE username each reject a colliding row. -/
def insertProfile (table : List Profile) (p : Profile) :
    Except DbError (List Profile) :=
  if table.any fun q => q.user_id == p.user_id then .error .pkViolation
  else if usernameTaken table p.username then .error .uniqueViolation
  else .ok (table ++ [p])

/-- Outcome of fetchUserProfile on the `profiles` table: the table
afterwards, and whether the catch block ran (store.ts line 46 throws on
insertError; the catch logs the error and sets the user to null). -/
structure FetchProfileOutcome where
  table : List Profile
  errorCaught : Bool
deriving DecidableEq

/-- fetchUserProfile (store.ts lines 20-87), restricted to its effect on the
`profiles` table: look the profile up by user_id (maybeSingle); if none
exists, insert one with the username derived from the email, no avatar, and
is_admin false — an insert error (notably the UNIQUE violation on username)
is thrown to the catch block, which creates no row; if a profile exists,
write nothing. -/
def fetchUserProfile (table : List Profile) (userId : Nat)
    (email : Option String) : FetchProfileOutcome :=
  match table.find? fun p => p.user_id == userId with
  | some _ => ⟨table, false⟩
  | none =>
    match insertProfile table ⟨userId, usernameFromEmail email, none, false⟩ with
    | .ok t => ⟨t, false⟩
    | .error _ => ⟨table, true⟩

/-- C8 counterexample: fetching the profile does NOT always establish a
profile row for the principal.  User 1 already holds username alice (from
alice at gmail); user 7 logs in for the first time with email alice at
yahoo: the derived username alice violates the UNIQUE constraint, the
insert error is caught, and afterwards no profile row for user 7 exists. -/
theorem fetch_profile_username_collision :
    (fetchUserProfile [⟨1, some "alice", none, false⟩] 7 (some "alice@yahoo.com")).table
      = [⟨1, some "alice", none, false⟩] ∧
    ((fetchUserProfile [⟨1, some "alice", none, false⟩] 7
        (some "alice@yahoo.com")).table.countP fun p => p.user_id == 7) = 0 ∧
    (fetchUserProfile [⟨1, some "alice", none, false⟩] 7
        (some "alice@yahoo.com")).errorCaught = true := by
  decide

/-- C8 amended: if a profile row for the principal exists, fetchUserProfile
creates no new row and leaves the table unchanged; if none exists and no
other profile holds the email-derived username, it creates exactly the row
(principal, derived username, is_admin false); but when another profile
already holds that username the insert hits the UNIQUE constraint, the error
is caught, and no profile row for the principal exists afterwards. -/
theorem fetch_profile_lazy_create (table : List Profile) (userId : Nat)
    (email : Option String) :
    ((∃ p ∈ table, p.user_id = userId) →
      fetchUserProfile table userId email = ⟨table, false⟩) ∧
    ((∀ p ∈ table, p.user_id ≠ userId) →
      (usernameTaken table (usernameFromEmail email) = false →
        fetchUserProfile table userId email
          = ⟨table ++ [⟨userId, usernameFromEmail email, none, false⟩], false⟩) ∧
      (usernameTaken table (usernameFromEmail email) = true →
        fetchUserProfile table userId email = ⟨table, true⟩)) := by
  constructor
  · rintro ⟨p, hmem, hid⟩
    unfold fetchUserProfile
    cases hf : table.find? fun q => q.user_id == userId with
    | some _ => rfl
    | none =>
      have := List.find?_eq_none.mp hf p hmem
      simp_all
  · intro habs
    have hf : table.find? (fun q => q.user_id == userId) = none := by
      apply List.find?_eq_none.mpr
      intro q hq
      simpa using habs q hq
    have hpk : (table.any fun q => q.user_id == userId) = false := by
      rw [List.any_eq_false]
      intro q hq
      simpa using habs q hq
    constructor
    · intro htaken
      unfold fetchUserProfile
      rw [hf]
      simp only [insertProfile, hpk, htaken, Bool.false_eq_true, if_false]
    · intro htaken
      unfold fetchUserProfile
      rw [hf]
      simp only [insertProfile, hpk, htaken, Bool.false_eq_true, if_false, if_true]

/-- Witness for `fetch_profile_lazy_create`, exercising both hypotheses of
the creation branch: user 7 with email a at x logs in against a table
holding only user 1 with username u; the derived username a is free, so the
row (7, some a, none, false) is appended with no error. -/
theorem fetch_profile_lazy_create_witness :
    fetchUserProfile [⟨1, some "u", none, true⟩] 7 (some "a@x")
      = ⟨[⟨1, some "u", none, true⟩]
          ++ [⟨7, usernameFromEmail (some "a@x"), none, false⟩], false⟩ :=
  ((fetch_profile_lazy_create [⟨1, some "u", none, true⟩] 7 (some "a@x")).2
    (by decide)).1 (by decide)

/-- One result object of the Jikan manga API (mangaApi.ts): title, possibly
null synopsis, genre names, status text, possibly null score, authors.  The
score is abstracted to Nat; C9 does not depend on its value. -/
structure ApiManga where
  title : String
  synopsis : Option String
  genres : List String
  status : String
  score : Option Nat
  authors : List String
deriving DecidableEq

/-- Outcome of the outbound axios call in searchManga: the request throws, or
returns a (possibly empty) result list. -/
inductive ApiResult where
  | failure
  | success (results : List ApiManga)
deriving DecidableEq

/-- The record searchManga builds from the first API result. -/
structure MangaInfo where
  title : String
  description : Option String
  genres : List String
  status : String
  rating : Nat
  author : String
deriving DecidableEq

/-- JavaScript a || b for string-valued a: null, undefined and the empty
string fall through to b. -/
def jsOrStr (a : Option String) (b : String) : String :=
  match a with
  | none => b
  | some s => if s = "" then b else s

/-- searchManga (mangaApi.ts lines 24-51) as a function of the API outcome:
a thrown request error is caught and returns null; an empty result list
returns null; otherwise the first result is mapped (status publishing →
ongoing else completed, score null → 0, missing author → Unknown). -/
def searchManga (res : ApiResult) : Option MangaInfo :=
  match res with
  | .failure => none
  | .success [] => none
  | .success (m :: _) =>
    some
      { title := m.title,
        description := m.synopsis,
        genres := m.genres,
        status := if m.status.toLower = "publishing" then "ongoing" else "completed",
        rating := m.score.getD 0,
        author := jsOrStr m.authors.head? "Unknown" }

/-- The admin creation form state (AdminPanel MangaForm, fields touched by
handleFetchInfo; the cover file is omitted as handleFetchInfo never writes
it). -/
structure MangaForm where
  title : String
  description : String
  author : String
  status : String
  genres : List String
  rating : Nat
deriving DecidableEq

/-- handleFetchInfo (AdminPanel, part_005 lines 254-282): with an empty title
it only toasts; otherwise it calls searchManga and, when that returns null
(or throws, which searchManga never does), leaves the form unchanged; on a
result it merges the fields with JavaScript || fallbacks (arrays are always
truthy, so genres are overwritten). -/
def handleFetchInfo (form : MangaForm) (res : ApiResult) : MangaForm :=
  if form.title = "" then form
  else
    match searchManga res with
    | none => form
    | some d =>
      { form with
        description := jsOrStr d.description form.description,
        author := jsOrStr (some d.author) form.author,
        status := d.status,
        genres := d.genres,
        rating := d.rating }

/-- C9: the external metadata lookup is non-fatal: a failed call and an empty
result list both yield null rather than an error, and whenever searchManga
yields null the admin creation form is left unchanged by handleFetchInfo. -/
theorem search_manga_nonfatal (form : MangaForm) (res : ApiResult)
    (hnull : searchManga res = none) :
    searchManga .failure = none ∧
    searchManga (.success []) = none ∧
    handleFetchInfo form res = form := by
  refine ⟨rfl, rfl, ?_⟩
  unfold handleFetchInfo
  rw [hnull]
  by_cases ht : form.title = "" <;> simp [ht]

/-- Witness for `search_manga_nonfatal`: a request failure leaves a filled
form unchanged. -/
theorem search_manga_nonfatal_witness :
    handleFetchInfo ⟨"One Piece", "d", "a", "ongoing", ["action"], 9⟩ .failure
      = ⟨"One Piece", "d", "a", "ongoing", ["action"], 9⟩ :=
  (search_manga_nonfatal ⟨"One Piece", "d", "a", "ongoing", ["action"], 9⟩
    .failure rfl).2.2

/-- handlePageChange (Reader.tsx lines 338-343): prev moves to
max(0, prev - 1), next moves to min(pages.length - 1, prev + 1).  Page
indices are JavaScript numbers, embedded as Int. -/
def handlePageChange (pages : List String) (direction : String) (prev : Int) :
    Int :=
  if direction = "prev" then max 0 (prev - 1)
  else min ((pages.length : Int) - 1) (prev + 1)

/-- The page index reached from currentPage = 0 after a sequence of
handlePageChange calls. -/
def runPageChanges (pages : List String) (dirs : List String) : Int :=
  dirs.foldl (fun cur d => handlePageChange pages d cur) 0

/-- One handlePageChange step keeps the index in [0, pages.length - 1]. -/
theorem handlePageChange_bounds (pages : List String) (hne : pages ≠ [])
    (d : String) (cur : Int) (h0 : 0 ≤ cur)
    (h1 : cur ≤ (pages.length : Int) - 1) :
    0 ≤ handlePageChange pages d cur ∧
    handlePageChange pages d cur ≤ (pages.length : Int) - 1 := by
  have hlen : 0 < pages.length := List.length_pos.mpr hne
  have hlen1 : (1 : Int) ≤ (pages.length : Int) := by exact_mod_cast hlen
  unfold handlePageChange
  by_cases hd : d = "prev"
  · simp only [hd, if_true]
    exact ⟨le_max_left 0 _, max_le (by omega) (by omega)⟩
  · simp only [hd, if_false]
    exact ⟨le_min (by omega) (by omega), min_le_left _ _⟩

/-- Folding handlePageChange preserves the bounds from any in-range start. -/
theorem runPageChanges_aux (pages : List String) (hne : pages ≠ [])
    (dirs : List String) :
    ∀ cur : Int, 0 ≤ cur → cur ≤ (pages.length : Int) - 1 →
      0 ≤ dirs.foldl (fun c d => handlePageChange pages d c) cur ∧
      dirs.foldl (fun c d => handlePageChange pages d c) cur
        ≤ (pages.length : Int) - 1 := by
  induction dirs with
  | nil => intro cur h0 h1; exact ⟨h0, h1⟩
  | cons d ds ih =>
    intro cur h0 h1
    rw [List.foldl_cons]
    obtain ⟨s0, s1⟩ := handlePageChange_bounds pages hne d cur h0 h1
    exact ih _ s0 s1

/-- C10: in paginated mode with a non-empty pages list, starting from
currentPage = 0, every sequence of prev/next calls keeps the page index in
[0, pages.length - 1]; prev at the first page and next at the last page
leave it unchanged. -/
theorem page_index_stays_in_bounds (pages : List String) (hne : pages ≠ [])
    (dirs : List String) :
    0 ≤ runPageChanges pages dirs ∧
    runPageChanges pages dirs ≤ (pages.length : Int) - 1 ∧
    handlePageChange pages "prev" 0 = 0 ∧
    handlePageChange pages "next" ((pages.length : Int) - 1)
      = (pages.length : Int) - 1 := by
  have hlen : 0 < pages.length := List.length_pos.mpr hne
  have hlen1 : (1 : Int) ≤ (pages.length : Int) := by exact_mod_cast hlen
  have hrun := runPageChanges_aux pages hne dirs 0 le_rfl (by omega)
  refine ⟨hrun.1, hrun.2, ?_, ?_⟩
  · unfold handlePageChange
    simp
  · unfold handlePageChange
    have : ¬("next" = "prev") := by decide
    simp only [this, if_false]
    exact min_eq_left (by omega)

/-- Witness for `page_index_stays_in_bounds`: three pages, the sequence
next, next, next, prev ends in bounds. -/
theorem page_index_stays_in_bounds_witness :
    0 ≤ runPageChanges ["p1", "p2", "p3"] ["next", "next", "next", "prev"] ∧
    runPageChanges ["p1", "p2", "p3"] ["next", "next", "next", "prev"]
      ≤ ((["p1", "p2", "p3"] : List String).length : Int) - 1 :=
  ⟨(page_index_stays_in_bounds ["p1", "p2", "p3"] (by decide)
      ["next", "next", "next", "prev"]).1,
   (page_index_stays_in_bounds ["p1", "p2", "p3"] (by decide)
      ["next", "next", "next", "prev"]).2.1⟩

end MangaReader
